import Mathlib

/-!
# Verification of the tartube media registry core (`tartube/media.py`)

This file shallowly embeds the data model and the operations of the media
registry defined in `tartube/media.py`: the `Video` / `Channel` / `Playlist` /
`Folder` node variants, child-list mutation with aggregate counters, the
comparator-based ordering engine, destination aliasing (`master_dbid` /
`slave_dbid_list`), path resolution, name matching and the flat export
serializer.  Python `None`-able fields become `Option`, Python integers become
`Int`/`Nat`, Python dictionaries become lookup functions or association lists,
and a Python call that can raise an uncaught exception returns `Except`
(`.error e` models the exception `e` propagating out of the function).

Each embedded definition keeps the name of the Python method it translates.
Theorems about the claims follow the definitions.
-/

set_option maxHeartbeats 1000000

/-- The four concrete media classes (`media.Video`, `media.Channel`,
`media.Playlist`, `media.Folder`); used where the source dispatches on
`isinstance` / `__class__`. -/
inductive MediaKind where
  | video
  | channel
  | playlist
  | folder
deriving DecidableEq, Repr

/-- `isinstance(obj, GenericRemoteContainer)`: channels and playlists. -/
def isRemoteKind : MediaKind → Bool
  | .channel => true
  | .playlist => true
  | _ => false

/-- The fields of a `media.Video` object that the verified operations read:
identity, naming, source URL, the five per-flag counters' predicates plus the
download flag, the two Unix timestamps and the playlist index
(`media.Video.__init__`). -/
structure VideoData where
  dbid : Nat
  name : String
  nickname : String
  source : Option String
  bookmark_flag : Bool
  dl_flag : Bool
  fav_flag : Bool
  new_flag : Bool
  waiting_flag : Bool
  upload_time : Option Int
  receive_time : Option Int
  index : Option Int
deriving DecidableEq, Repr

/-- A freshly constructed `media.Video(dbid, name, parent)`: per
`Video.__init__` the nickname equals the name, the source and both timestamps
are `None`, the index is `None` and every flag is `False`. -/
def mkFreshVideo (dbid : Nat) (name : String) : VideoData :=
  { dbid := dbid
    name := name
    nickname := name
    source := none
    bookmark_flag := false
    dl_flag := false
    fav_flag := false
    new_flag := false
    waiting_flag := false
    upload_time := none
    receive_time := none
    index := none }

/-! ## Renaming (`set_name`), claim C8 -/

/-- The `name`/`nickname` pair of a node, as read by the two `set_name`
implementations. -/
structure NameState where
  name : String
  nickname : String
deriving DecidableEq, Repr

/-- `GenericContainer.set_name` (media.py:864-871): updates the nickname to
the new name when the nickname still equals the current name, then assigns the
name. -/
def container_set_name (s : NameState) (name : String) : NameState :=
  if s.nickname = s.name then { name := name, nickname := name }
  else { s with name := name }

/-- `Video.set_name` (media.py:1508-1510): assigns the name only; the
nickname is never touched. -/
def video_set_name (s : NameState) (name : String) : NameState :=
  { s with name := name }

/-! ## The remote-container comparator (`GenericRemoteContainer.do_sort`),
claim C3

The Python function can fall off the end of the `if`/`elif` chain (returning
`None`): this is modelled by `Option Int`, `none` meaning that the function
returns no number and `functools.cmp_to_key` subsequently raises `TypeError`
inside `list.sort`. -/

/-- `GenericRemoteContainer.do_sort` (media.py:1081-1124).  `isPlaylist` is
`isinstance(self, Playlist)`.  The final `else: return 0` is attached to the
outer `if`/`elif` chain, so when both upload times are set and equal but the
receive times are not both set, no branch returns and the Python function
yields `None`. -/
def remote_do_sort (isPlaylist : Bool) (obj1 obj2 : VideoData) : Option Int :=
  match isPlaylist, obj1.index, obj2.index with
  | true, some i1, some i2 =>
      if i1 < i2 then some (-1) else some 1
  | _, _, _ =>
      match obj1.upload_time, obj2.upload_time with
      | some u1, some u2 =>
          if u1 > u2 then some (-1)
          else if u1 < u2 then some 1
          else
            match obj1.receive_time, obj2.receive_time with
            | some r1, some r2 =>
                if r1 < r2 then some (-1)
                else if r1 > r2 then some 1
                else some 0
            | _, _ => none
      | _, _ => some 0

/-! ## Name normalization and matching
(`GenericContainer.find_matching_video`), claim C9 -/

/-- Python `\w` (`re.UNICODE`) restricted to its ASCII scope: letters, digits
and the underscore. -/
def isWordChar (c : Char) : Bool := c.isAlphanum || c = '_'

/-- Python `\s`: the six ASCII whitespace characters. -/
def isPySpace (c : Char) : Bool :=
  c = ' ' || c = '\t' || c = '\n' || c = '\r' || c = '\x0b' || c = '\x0c'

/-- `re.sub` of a pattern `X+` by a single space: every maximal run of
characters satisfying `p` becomes one space.  `inRun` records whether the
previous character belonged to the run being replaced. -/
def replaceRunsAux (p : Char → Bool) : Bool → List Char → List Char
  | _, [] => []
  | inRun, c :: cs =>
      if p c then
        if inRun then replaceRunsAux p true cs
        else ' ' :: replaceRunsAux p true cs
      else c :: replaceRunsAux p false cs

/-- `re.sub` of a pattern `X+` by a single space. -/
def replaceRuns (p : Char → Bool) (l : List Char) : List Char :=
  replaceRunsAux p false l

/-- The normalization pipeline of `find_matching_video` (media.py:366-376 and
381-390): replace runs of non-word characters by a space, collapse
underscore/whitespace runs to a space, and strip leading and trailing
whitespace. -/
def tidy_name (s : String) : String :=
  let l1 := replaceRuns (fun c => !isWordChar c) s.data
  let l2 := replaceRuns (fun c => c = '_' || isPySpace c) l1
  let l3 := l2.dropWhile isPySpace
  ⟨(l3.reverse.dropWhile isPySpace).reverse⟩

/-- Python slicing `s[:n]` for an `Int` index `n`: a nonnegative `n` takes the
first `n` characters (clamped), a negative `n` drops `-n` characters from the
end, and `s[:0]` is empty. -/
def pySliceTo (s : String) (n : Int) : String :=
  if n < 0 then ⟨s.data.take ((s.data.length : Int) + n).toNat⟩
  else ⟨s.data.take n.toNat⟩

/-! The media tree.  `media.py` stores children as a Python list holding any
of the four classes; `MTree` is that object graph with the fields used by the
verified operations. -/

/-- The fields of a `media.Channel` / `media.Playlist` object read by the
export serializer. -/
structure RemoteData where
  dbid : Nat
  name : String
  nickname : String
  source : Option String
deriving DecidableEq, Repr

/-- The fields of a `media.Folder` object read by the export serializer. -/
structure FolderData where
  dbid : Nat
  name : String
  nickname : String
  fixed_flag : Bool
deriving DecidableEq, Repr

/-- A media data object together with its child list (`self.child_list`). -/
inductive MTree where
  | video (d : VideoData)
  | channel (d : RemoteData) (children : List MTree)
  | playlist (d : RemoteData) (children : List MTree)
  | folder (d : FolderData) (children : List MTree)

/-- `isinstance(obj, Video)` on a tree node. -/
def MTree.isVideo : MTree → Bool
  | .video _ => true
  | _ => false

/-- The loop body of `find_matching_video` (media.py:378-405): walk the child
list, normalize each `media.Video` child's name, and return the first child
matching under the configured method. -/
def fmv_loop (method : String) (first : Nat) (ignore : Nat)
    (test_name : String) : List MTree → Option VideoData
  | [] => none
  | .video vd :: rest =>
      let child_name := tidy_name vd.name
      if (method = "exact_match" ∧ child_name = test_name)
          ∨ (method = "match_first"
              ∧ pySliceTo child_name (first : Int) = pySliceTo test_name (first : Int))
          ∨ (method = "ignore_last"
              ∧ pySliceTo child_name (-(ignore : Int)) = pySliceTo test_name (-(ignore : Int)))
      then some vd
      else fmv_loop method first ignore test_name rest
  | .channel _ _ :: rest => fmv_loop method first ignore test_name rest
  | .playlist _ _ :: rest => fmv_loop method first ignore test_name rest
  | .folder _ _ :: rest => fmv_loop method first ignore test_name rest

/-- `GenericContainer.find_matching_video` (media.py:336-405).  `method`,
`first` and `ignore` are `app_obj.match_method`, `app_obj.match_first_chars`
and `app_obj.match_ignore_chars`; the source multiplies `ignore` by `-1`
before slicing, which `fmv_loop` reproduces. -/
def find_matching_video (method : String) (first : Nat) (ignore : Nat)
    (children : List MTree) (name : String) : Option VideoData :=
  fmv_loop method first ignore (tidy_name name) children

/-- The first direct `Video` child of the container. -/
def MTree.asVideo : MTree → Option VideoData
  | .video d => some d
  | _ => none

/-- Modelled from the spec sentence for claim C9: under the exact-match
policy the result is the first direct Video child, in current child order,
whose normalized name equals the normalized candidate. -/
def findMatchingVideoExactSpec (children : List MTree) (name : String) :
    Option VideoData :=
  (children.filterMap MTree.asVideo).find?
    (fun vd => tidy_name vd.name = tidy_name name)

/-! ## The ordering engine

`list.sort(key=functools.cmp_to_key(cmp))` is modelled as insertion sort by
the comparator: an element is inserted in front of the first element it
compares `<= 0` against.  The claims proved about the sort (a permutation of
the input; the strata ordering of claim C4) hold for any comparison sort, so
the choice of insertion sort over Timsort is immaterial.  The monadic variant
propagates a comparator that can fail (`GenericRemoteContainer.do_sort`
returning `None`, on which Python's `cmp_to_key` raises `TypeError`). -/

/-- Insert `x` in front of the first element `y` of `l` with `c x y <= 0`. -/
def insertCmp (c : α → α → Int) (x : α) : List α → List α
  | [] => [x]
  | y :: ys => if c x y ≤ 0 then x :: y :: ys else y :: insertCmp c x ys

/-- Insertion sort by a total comparator. -/
def sortByCmp (c : α → α → Int) : List α → List α
  | [] => []
  | x :: xs => insertCmp c x (sortByCmp c xs)

/-- Insertion step with a failing comparator: `none` models the `TypeError`
raised by `functools.cmp_to_key` when the comparator returns `None`. -/
def insertCmpM (c : α → α → Option Int) (x : α) : List α → Option (List α)
  | [] => some [x]
  | y :: ys =>
      match c x y with
      | none => none
      | some v =>
          if v ≤ 0 then some (x :: y :: ys)
          else (insertCmpM c x ys).map (fun l => y :: l)

/-- Insertion sort with a failing comparator. -/
def sortByCmpM (c : α → α → Option Int) : List α → Option (List α)
  | [] => some []
  | x :: xs => (sortByCmpM c xs).bind (insertCmpM c x)

/-- `GenericRemoteContainer.sort_children` (media.py:1127-1146): under the
single-writer model the copy-and-retry loop runs exactly once, and the final
statement sorts the (already sorted) child list a second time. -/
def remote_sort_children (isPlaylist : Bool) (l : List VideoData) :
    Option (List VideoData) :=
  (sortByCmpM (remote_do_sort isPlaylist) l).bind
    (sortByCmpM (remote_do_sort isPlaylist))

/-! ## The folder comparator (`Folder.do_sort`), claim C4 -/

/-- The fields of a child object read by `Folder.do_sort`: its class, its
name, and (for videos) its two timestamps. -/
structure SortChild where
  kind : MediaKind
  name : String
  upload_time : Option Int
  receive_time : Option Int
deriving DecidableEq, Repr

/-- `Folder.do_sort` (media.py:2358-2438).  `priv` is `self.priv_flag`.  The
first branch condition is `str(obj1.__class__) == str(obj2.__class__)` or both
objects being `GenericRemoteContainer`s; the final branch orders different
strata: folders, then channels/playlists, then videos. -/
def folder_do_sort (priv : Bool) (obj1 obj2 : SortChild) : Int :=
  if obj1.kind = obj2.kind ∨ (isRemoteKind obj1.kind ∧ isRemoteKind obj2.kind) then
    if obj1.kind = .video then
      match obj1.upload_time, obj2.upload_time with
      | some u1, some u2 =>
          if u1 > u2 then -1
          else if u1 < u2 then 1
          else
            match obj1.receive_time, obj2.receive_time with
            | some r1, some r2 =>
                if priv then
                  if r1 > r2 then -1 else if r1 < r2 then 1 else 0
                else
                  if r1 < r2 then -1 else if r1 > r2 then 1 else 0
            | _, _ => 0
      | _, _ => 0
    else
      if obj1.name.toLower < obj2.name.toLower then -1
      else if obj2.name.toLower < obj1.name.toLower then 1
      else 0
  else
    if obj1.kind = .folder then -1
    else if obj2.kind = .folder then 1
    else if isRemoteKind obj1.kind then -1
    else if isRemoteKind obj2.kind then 1
    else 0

/-- `Folder.sort_children` (media.py:2441-2461): under the single-writer
model the copy-and-retry loop sorts once and commits. -/
def folder_sort_children (priv : Bool) (l : List SortChild) : List SortChild :=
  sortByCmp (folder_do_sort priv) l

/-- The structural stratum of `Folder.do_sort`'s ordering: folders first,
then channels/playlists, then videos. -/
def strataRank : MediaKind → Nat
  | .folder => 0
  | .channel => 1
  | .playlist => 1
  | .video => 2

/-! ## The export serializer (`prepare_flat_export`), claim C7

The export document (`mini_dict`) and the dictionary of exported documents
(`db_dict`).  A Python dict keyed by `dbid` is modelled as an insertion-ordered
association list: assignment overwrites an existing key in place or appends. -/

/-- The `mini_dict` document shape built by the export functions:
`{type, dbid, name, nickname, source, db_dict}`. -/
inductive ExpDoc where
  | mk (ty : String) (dbid : Nat) (name : String) (nickname : Option String)
      (source : Option String) (db_dict : List (Nat × ExpDoc))

/-- The `type` field of a document. -/
def ExpDoc.ty : ExpDoc → String
  | .mk t _ _ _ _ _ => t

/-- The `dbid` field of a document. -/
def ExpDoc.dbid : ExpDoc → Nat
  | .mk _ d _ _ _ _ => d

/-- Python dict assignment `db[k] = v`: overwrite the entry for `k` in place,
or append a new entry. -/
def dictSet (db : List (Nat × ExpDoc)) (k : Nat) (v : ExpDoc) :
    List (Nat × ExpDoc) :=
  if (db.find? (fun p => p.1 = k)).isSome then
    db.map (fun p => if p.1 = k then (k, v) else p)
  else db ++ [(k, v)]

/-- Python dict lookup `db.get(k)`. -/
def dictGet (db : List (Nat × ExpDoc)) (k : Nat) : Option ExpDoc :=
  (db.find? (fun p => p.1 = k)).map (fun p => p.2)

/-- The video `mini_dict` of media.py:644-651 (flat export) and 537-544
(nested export): videos are exported with a `None` nickname and an empty
child dictionary. -/
def videoMiniDict (vd : VideoData) : ExpDoc :=
  .mk "video" vd.dbid vd.name none vd.source []

mutual

/-- `GenericContainer.prepare_flat_export` (media.py:577-689).  `iv`, `ic`,
`ip` are `include_video_flag`, `include_channel_flag`,
`include_playlist_flag`; `db` is the accumulated top-level `db_dict`.
Channels and playlists collect their video children into their own
`child_dict` and recurse into non-video children; a non-fixed folder only
recurses into its non-video children (its video children are not visited). -/
def prepare_flat_export (iv ic ip : Bool) (t : MTree)
    (db : List (Nat × ExpDoc)) : List (Nat × ExpDoc) :=
  match t with
  | .video _ => db
  | .channel d cs =>
      if ic then
        let p := flat_remote_children iv ic ip cs [] db
        dictSet p.2 d.dbid (.mk "channel" d.dbid d.name (some d.nickname) d.source p.1)
      else db
  | .playlist d cs =>
      if ip then
        let p := flat_remote_children iv ic ip cs [] db
        dictSet p.2 d.dbid (.mk "playlist" d.dbid d.name (some d.nickname) d.source p.1)
      else db
  | .folder d cs =>
      if d.fixed_flag then db
      else flat_flat_folder_children iv ic ip cs db

/-- The child loop of the channel/playlist branch (media.py:634-662):
a video child with a known source is added to the growing `child_dict` when
videos are included; any other child updates the top-level dictionary
recursively. -/
def flat_remote_children (iv ic ip : Bool) (cs : List MTree)
    (child_dict db : List (Nat × ExpDoc)) :
    List (Nat × ExpDoc) × List (Nat × ExpDoc) :=
  match cs with
  | [] => (child_dict, db)
  | .video vd :: rest =>
      let cd :=
        if iv ∧ vd.source ≠ none then dictSet child_dict vd.dbid (videoMiniDict vd)
        else child_dict
      flat_remote_children iv ic ip rest cd db
  | .channel d cc :: rest =>
      flat_remote_children iv ic ip rest child_dict
        (prepare_flat_export iv ic ip (.channel d cc) db)
  | .playlist d cc :: rest =>
      flat_remote_children iv ic ip rest child_dict
        (prepare_flat_export iv ic ip (.playlist d cc) db)
  | .folder d cc :: rest =>
      flat_remote_children iv ic ip rest child_dict
        (prepare_flat_export iv ic ip (.folder d cc) db)

/-- The child loop of the folder branch (media.py:675-686): only non-video
children are visited (`if not isinstance(child_obj, Video)`); video children
of a folder never reach the flat export. -/
def flat_flat_folder_children (iv ic ip : Bool) (cs : List MTree)
    (db : List (Nat × ExpDoc)) : List (Nat × ExpDoc) :=
  match cs with
  | [] => db
  | .video _ :: rest => flat_flat_folder_children iv ic ip rest db
  | .channel d cc :: rest =>
      flat_flat_folder_children iv ic ip rest
        (prepare_flat_export iv ic ip (.channel d cc) db)
  | .playlist d cc :: rest =>
      flat_flat_folder_children iv ic ip rest
        (prepare_flat_export iv ic ip (.playlist d cc) db)
  | .folder d cc :: rest =>
      flat_flat_folder_children iv ic ip rest
        (prepare_flat_export iv ic ip (.folder d cc) db)

end

/-! ## Child-list mutation and aggregate counters, claims C1 and C2

The per-container state read and written by `add_child` / `del_child`: the
ordered child list and the six counters.  In the mutation sequences of claim
C1 every child is a `media.Video` object, so the child list holds
`VideoData`; Python object identity is decided through the (globally unique)
`dbid` carried by each value.  Counters are Python integers (`Int`). -/

structure CState where
  child_list : List VideoData
  vid_count : Int
  bookmark_count : Int
  dl_count : Int
  fav_count : Int
  new_count : Int
  waiting_count : Int
deriving DecidableEq, Repr

/-- The counter fields of a freshly constructed container
(`Channel.__init__` / `Playlist.__init__` / `Folder.__init__`): empty child
list, all counters zero. -/
def initCState : CState :=
  { child_list := []
    vid_count := 0
    bookmark_count := 0
    dl_count := 0
    fav_count := 0
    new_count := 0
    waiting_count := 0 }

/-- `GenericContainer.del_child` (media.py:233-277): if the object is a
child, remove it (Python `list.remove`: first occurrence) and decrement
`vid_count` plus every counter whose flag the removed video carries; report
whether a child was removed. -/
def del_child (s : CState) (child_obj : VideoData) : CState × Bool :=
  if child_obj ∈ s.child_list then
    ({ child_list := s.child_list.erase child_obj
       vid_count := s.vid_count - 1
       bookmark_count := s.bookmark_count - (if child_obj.bookmark_flag then 1 else 0)
       dl_count := s.dl_count - (if child_obj.dl_flag then 1 else 0)
       fav_count := s.fav_count - (if child_obj.fav_flag then 1 else 0)
       new_count := s.new_count - (if child_obj.new_flag then 1 else 0)
       waiting_count := s.waiting_count - (if child_obj.waiting_flag then 1 else 0) },
     true)
  else (s, false)

/-- A `media.Video` viewed through the fields `Folder.do_sort` reads. -/
def videoAsSortChild (v : VideoData) : SortChild :=
  { kind := .video
    name := v.name
    upload_time := v.upload_time
    receive_time := v.receive_time }

/-- `GenericRemoteContainer.add_child` (media.py:1053-1078) for a
`media.Video` argument: the accept condition
`isinstance(child_obj, Video) or child_obj in self.child_list` holds, so the
object is appended unconditionally, the children are sorted (`none` when the
comparator fails) and `vid_count` is incremented. -/
def remote_add_child (isPlaylist : Bool) (s : CState) (child_obj : VideoData) :
    Option CState :=
  (remote_sort_children isPlaylist (s.child_list ++ [child_obj])).map
    (fun sorted =>
      { s with child_list := sorted, vid_count := s.vid_count + 1 })

/-- `Folder.add_child` (media.py:2294-2319) for a `media.Video` argument:
append only when not already a child, sort, and increment `vid_count`. -/
def folder_add_child (priv : Bool) (s : CState) (child_obj : VideoData) :
    CState :=
  if child_obj ∈ s.child_list then s
  else
    { s with
      child_list :=
        sortByCmp
          (fun a b => folder_do_sort priv (videoAsSortChild a) (videoAsSortChild b))
          (s.child_list ++ [child_obj])
      vid_count := s.vid_count + 1 }

/-- A container variant, as it determines the `add_child`/`do_sort`
implementation used on it. -/
inductive ContainerKind where
  | channel
  | playlist
  | folder (priv : Bool)
deriving DecidableEq, Repr

/-- `add_child` dispatched by container class. -/
def add_child : ContainerKind → CState → VideoData → Option CState
  | .channel, s, v => remote_add_child false s v
  | .playlist, s, v => remote_add_child true s v
  | .folder priv, s, v => some (folder_add_child priv s v)

/-- One mutation of claim C1's sequences: constructing a fresh
`media.Video(dbid, name, parent)` (whose `__init__` calls
`parent.add_child(self)`), or calling `del_child`. -/
inductive MutOp where
  | addFresh (dbid : Nat) (name : String)
  | del (v : VideoData)

/-- Apply one mutation. -/
def applyMutOp (k : ContainerKind) (s : CState) : MutOp → Option CState
  | .addFresh dbid name => add_child k s (mkFreshVideo dbid name)
  | .del v => some (del_child s v).1

/-- Run a sequence of mutations; `none` when a sort crashed. -/
def runMutOps (k : ContainerKind) (s : CState) : List MutOp → Option CState
  | [] => some s
  | op :: ops => (applyMutOp k s op).bind (fun s1 => runMutOps k s1 ops)

/-- The invariant of claim C1: every aggregate counter equals the number of
direct video children satisfying its predicate, `vid_count` counting all of
them. -/
def counters_ok (s : CState) : Prop :=
  s.vid_count = (s.child_list.length : Int)
    ∧ s.bookmark_count = (s.child_list.countP (fun v => v.bookmark_flag) : Int)
    ∧ s.dl_count = (s.child_list.countP (fun v => v.dl_flag) : Int)
    ∧ s.fav_count = (s.child_list.countP (fun v => v.fav_flag) : Int)
    ∧ s.new_count = (s.child_list.countP (fun v => v.new_flag) : Int)
    ∧ s.waiting_count = (s.child_list.countP (fun v => v.waiting_flag) : Int)

/-! ## Destination aliasing and path resolution, claims C5, C6 and C10 -/

/-- The fields of a container consulted by the directory helpers: its
identity, its aliasing target, its name and the names of its ancestors
(`parent_obj.name`, `parent_obj.parent_obj.name`, ..., up to the root). -/
structure CNode where
  dbid : Nat
  master_dbid : Nat
  name : String
  ancestors : List String
deriving DecidableEq, Repr

/-- `os.path.join(base, *segments)` for separator-free segments, with
`os.path.abspath` the identity on an already absolute, already normalized
base. -/
def os_path_join (base : String) (segments : List String) : String :=
  segments.foldl (fun acc seg => acc ++ "/" ++ seg) base

/-- `GenericContainer.get_default_dir` (media.py:920-960): the directory list
is the node's own name (or the `new_name` override) preceded by the names of
its ancestors in root-to-leaf order, joined onto the downloads directory. -/
def get_default_dir (downloads_dir : String) (self : CNode)
    (new_name : Option String) : String :=
  os_path_join downloads_dir (self.ancestors.reverse ++ [new_name.getD self.name])

/-- `GenericContainer.get_actual_dir` (media.py:877-917): when aliased
(`master_dbid != dbid`), return the default directory of the registry entry
for `master_dbid` (`none` models the `KeyError` of
`app_obj.media_reg_dict[...]` on a missing id); otherwise return the node's
own default directory. -/
def get_actual_dir (reg : Nat → Option CNode) (downloads_dir : String)
    (self : CNode) (new_name : Option String) : Option String :=
  if self.master_dbid ≠ self.dbid then
    (reg self.master_dbid).map (fun m => get_default_dir downloads_dir m new_name)
  else some (get_default_dir downloads_dir self new_name)

/-- An exception propagating out of a Python call. -/
inductive PyError where
  | keyError (k : Nat)
  | typeError
deriving DecidableEq, Repr

/-- `GenericContainer.get_relative_default_dir` (media.py:1005-1042): the
same directory list joined without the downloads directory.  Its Python
signature is `(self, new_name=None)`: one optional parameter, so any call
passing two positional arguments raises `TypeError`. -/
def get_relative_default_dir (self : CNode) (new_name : Option String) : String :=
  match self.ancestors.reverse ++ [new_name.getD self.name] with
  | [] => ""
  | seg :: rest => os_path_join seg rest

/-- The maximum number of positional arguments (after `self`) accepted by
`get_relative_default_dir`. -/
def get_relative_default_dir_max_args : Nat := 1

/-- A Python call passing `passed` positional arguments to a bound method
accepting at most `maxArgs`: `TypeError` when too many. -/
def pyCallBound (maxArgs passed : Nat) (result : String) : Except PyError String :=
  if passed ≤ maxArgs then .ok result else .error .typeError

/-- `GenericContainer.get_relative_actual_dir` (media.py:963-1002): both
branches execute `….get_relative_default_dir(app_obj, new_name)` — two
positional arguments against the one-optional-parameter signature — after the
aliased branch has resolved `master_dbid` through the registry dictionary. -/
def get_relative_actual_dir (reg : Nat → Option CNode) (self : CNode)
    (new_name : Option String) : Except PyError String :=
  if self.master_dbid ≠ self.dbid then
    match reg self.master_dbid with
    | some master =>
        pyCallBound get_relative_default_dir_max_args 2
          (get_relative_default_dir master new_name)
    | none => .error (.keyError self.master_dbid)
  else
    pyCallBound get_relative_default_dir_max_args 2
      (get_relative_default_dir self new_name)

/-- The per-node state read and written by `set_master_dbid` on nodes other
than `self`: their `slave_dbid_list`. -/
structure RegNode where
  slave_dbid_list : List Nat
deriving DecidableEq, Repr

/-- `GenericContainer.add_slave_dbid` (media.py:835-847): append unless
already present. -/
def add_slave_dbid (n : RegNode) (dbid : Nat) : RegNode :=
  if dbid ∈ n.slave_dbid_list then n
  else { slave_dbid_list := n.slave_dbid_list ++ [dbid] }

/-- `GenericContainer.del_slave_dbid` (media.py:850-861): rebuild the list
without `dbid`. -/
def del_slave_dbid (n : RegNode) (dbid : Nat) : RegNode :=
  { slave_dbid_list := n.slave_dbid_list.filter (fun d => d ≠ dbid) }

/-- Point update of the registry dictionary. -/
def regSet (reg : Nat → Option RegNode) (k : Nat) (v : RegNode) :
    Nat → Option RegNode :=
  fun i => if i = k then some v else reg i

/-- The `dbid`/`master_dbid` pair of the node `set_master_dbid` runs on. -/
structure MasterState where
  dbid : Nat
  master_dbid : Nat
deriving DecidableEq, Repr

/-- `GenericContainer.set_master_dbid` (media.py:788-812): no-op when
unchanged; otherwise the old destination's slave list is updated only when
the old master id is present in the registry (`if self.master_dbid in
app_obj.media_reg_dict`), `master_dbid` is reassigned, and when the new value
differs from `dbid` the new destination is fetched with a bare dictionary
index — `.error (.keyError ...)` models the uncaught `KeyError` on a missing
id. -/
def set_master_dbid (reg : Nat → Option RegNode) (self : MasterState)
    (dbid : Nat) : Except PyError (MasterState × (Nat → Option RegNode)) :=
  if dbid = self.master_dbid then .ok (self, reg)
  else
    let reg1 :=
      if self.master_dbid ≠ self.dbid then
        match reg self.master_dbid with
        | some old_dest => regSet reg self.master_dbid (del_slave_dbid old_dest self.dbid)
        | none => reg
      else reg
    let self1 := { self with master_dbid := dbid }
    if dbid ≠ self.dbid then
      match reg1 dbid with
      | some new_dest => .ok (self1, regSet reg1 dbid (add_slave_dbid new_dest self.dbid))
      | none => .error (.keyError dbid)
    else .ok (self1, reg1)

/-! # Theorems

Helper lemmas first, then one theorem per claim (with its witness or
counterexample). -/

/-! ## Sorting produces a permutation -/

theorem insertCmp_perm (c : α → α → Int) (x : α) (l : List α) :
    (insertCmp c x l).Perm (x :: l) := by
  induction l with
  | nil => exact List.Perm.refl _
  | cons y ys ih =>
      simp only [insertCmp]
      split
      · exact List.Perm.refl _
      · exact (ih.cons y).trans (List.Perm.swap x y ys)

theorem sortByCmp_perm (c : α → α → Int) (l : List α) :
    (sortByCmp c l).Perm l := by
  induction l with
  | nil => exact List.Perm.refl _
  | cons x xs ih => exact (insertCmp_perm c x (sortByCmp c xs)).trans (ih.cons x)

theorem insertCmpM_perm (c : α → α → Option Int) (x : α) (l : List α) :
    ∀ l', insertCmpM c x l = some l' → l'.Perm (x :: l) := by
  induction l with
  | nil =>
      intro l' h
      simp only [insertCmpM, Option.some.injEq] at h
      exact h ▸ List.Perm.refl _
  | cons y ys ih =>
      intro l' h
      simp only [insertCmpM] at h
      cases hc : c x y with
      | none => rw [hc] at h; exact absurd h (by simp)
      | some v =>
          rw [hc] at h
          dsimp only at h
          by_cases hv : v ≤ 0
          · rw [if_pos hv] at h
            simp only [Option.some.injEq] at h
            exact h ▸ List.Perm.refl _
          · rw [if_neg hv] at h
            rcases Option.map_eq_some'.mp h with ⟨l1, h1, rfl⟩
            exact ((ih l1 h1).cons y).trans (List.Perm.swap x y ys)

theorem sortByCmpM_perm (c : α → α → Option Int) (l : List α) :
    ∀ l', sortByCmpM c l = some l' → l'.Perm l := by
  induction l with
  | nil =>
      intro l' h
      simp only [sortByCmpM, Option.some.injEq] at h
      exact h ▸ List.Perm.refl _
  | cons x xs ih =>
      intro l' h
      simp only [sortByCmpM] at h
      rcases Option.bind_eq_some.mp h with ⟨m, hm, hins⟩
      exact (insertCmpM_perm c x m l' hins).trans ((ih m hm).cons x)

theorem remote_sort_children_perm (isPlaylist : Bool) (l l' : List VideoData)
    (h : remote_sort_children isPlaylist l = some l') : l'.Perm l := by
  unfold remote_sort_children at h
  rcases Option.bind_eq_some.mp h with ⟨m, hm, h2⟩
  exact (sortByCmpM_perm _ m l' h2).trans (sortByCmpM_perm _ l m hm)

/-! ## Claim C1: the aggregate counters -/

theorem count_erase_int (p : VideoData → Bool) (l : List VideoData)
    (v : VideoData) (hv : v ∈ l) :
    ((l.erase v).countP p : Int) = (l.countP p : Int) - (if p v then 1 else 0) := by
  have hperm := List.perm_cons_erase hv
  rw [hperm.countP_eq p, List.countP_cons]
  by_cases hp : p v <;> simp [hp]

theorem length_erase_int (l : List VideoData) (v : VideoData) (hv : v ∈ l) :
    ((l.erase v).length : Int) = (l.length : Int) - 1 := by
  have hperm := List.perm_cons_erase hv
  rw [hperm.length_eq, List.length_cons]
  push_cast
  ring

theorem del_child_preserves (s : CState) (v : VideoData) (h : counters_ok s) :
    counters_ok (del_child s v).1 := by
  obtain ⟨h1, h2, h3, h4, h5, h6⟩ := h
  unfold del_child
  by_cases hv : v ∈ s.child_list
  · rw [if_pos hv]
    refine ⟨?_, ?_, ?_, ?_, ?_, ?_⟩ <;>
      simp only [length_erase_int _ _ hv, count_erase_int _ _ _ hv, h1, h2, h3, h4, h5, h6]
  · rw [if_neg hv]
    exact ⟨h1, h2, h3, h4, h5, h6⟩

theorem countP_append_fresh (p : VideoData → Bool) (l : List VideoData)
    (v : VideoData) (hp : p v = false) :
    (l ++ [v]).countP p = l.countP p := by
  rw [List.countP_append]
  simp [List.countP_cons, hp]

theorem fresh_counters (dbid : Nat) (name : String) :
    (mkFreshVideo dbid name).bookmark_flag = false
      ∧ (mkFreshVideo dbid name).dl_flag = false
      ∧ (mkFreshVideo dbid name).fav_flag = false
      ∧ (mkFreshVideo dbid name).new_flag = false
      ∧ (mkFreshVideo dbid name).waiting_flag = false :=
  ⟨rfl, rfl, rfl, rfl, rfl⟩

theorem add_fresh_preserves (k : ContainerKind) (s : CState) (dbid : Nat)
    (name : String) (h : counters_ok s) :
    ∀ s', add_child k s (mkFreshVideo dbid name) = some s' → counters_ok s' := by
  obtain ⟨h1, h2, h3, h4, h5, h6⟩ := h
  obtain ⟨f1, f2, f3, f4, f5⟩ := fresh_counters dbid name
  intro s' hadd
  have key :
      ∀ sorted : List VideoData,
        sorted.Perm (s.child_list ++ [mkFreshVideo dbid name]) →
        counters_ok { s with child_list := sorted, vid_count := s.vid_count + 1 } := by
    intro sorted hperm
    refine ⟨?_, ?_, ?_, ?_, ?_, ?_⟩ <;>
      simp only [hperm.length_eq, hperm.countP_eq,
        countP_append_fresh _ _ _ f1, countP_append_fresh _ _ _ f2,
        countP_append_fresh _ _ _ f3, countP_append_fresh _ _ _ f4,
        countP_append_fresh _ _ _ f5,
        List.length_append, List.length_cons, List.length_nil,
        h1, h2, h3, h4, h5, h6] <;> push_cast <;> ring
  cases k with
  | channel =>
      simp only [add_child, remote_add_child, Option.map_eq_some'] at hadd
      rcases hadd with ⟨sorted, hsort, rfl⟩
      exact key sorted (remote_sort_children_perm _ _ _ hsort)
  | playlist =>
      simp only [add_child, remote_add_child, Option.map_eq_some'] at hadd
      rcases hadd with ⟨sorted, hsort, rfl⟩
      exact key sorted (remote_sort_children_perm _ _ _ hsort)
  | folder priv =>
      simp only [add_child, folder_add_child, Option.some.injEq] at hadd
      by_cases hmem : mkFreshVideo dbid name ∈ s.child_list
      · rw [if_pos hmem] at hadd
        exact hadd ▸ ⟨h1, h2, h3, h4, h5, h6⟩
      · rw [if_neg hmem] at hadd
        exact hadd ▸ key _ (sortByCmp_perm _ _)

theorem runMutOps_preserves (k : ContainerKind) (ops : List MutOp) :
    ∀ s s', counters_ok s → runMutOps k s ops = some s' → counters_ok s' := by
  induction ops with
  | nil =>
      intro s s' h hrun
      simp only [runMutOps, Option.some.injEq] at hrun
      exact hrun ▸ h
  | cons op ops ih =>
      intro s s' h hrun
      simp only [runMutOps] at hrun
      rcases Option.bind_eq_some.mp hrun with ⟨s1, hop, hrest⟩
      cases op with
      | addFresh dbid name =>
          exact ih s1 s' (add_fresh_preserves k s dbid name h s1 hop) hrest
      | del v =>
          simp only [applyMutOp, Option.some.injEq] at hop
          exact ih s1 s' (hop ▸ del_child_preserves s v h) hrest

/-- C1: for every container, after any sequence of constructing fresh
`media.Video` children (each `Video.__init__` calling `add_child` on its
parent) and of `del_child` calls, every aggregate counter equals the number
of direct video children satisfying its predicate (`vid_count` counting all
of them). -/
theorem counters_match_after_mutations (k : ContainerKind) (ops : List MutOp)
    (s : CState) (h : runMutOps k initCState ops = some s) : counters_ok s :=
  runMutOps_preserves k ops initCState s
    ⟨rfl, rfl, rfl, rfl, rfl, rfl⟩ h

/-- Witness for C1: a concrete mutation sequence on a channel — two fresh
videos added, the first then removed — reaches the state computed by the
embedding, and the theorem yields its counter invariant. -/
theorem counters_match_after_mutations_witness :
    counters_ok (CState.mk [mkFreshVideo 2 "b"] 1 0 0 0 0 0) :=
  counters_match_after_mutations .channel
    [.addFresh 1 "a", .addFresh 2 "b", .del (mkFreshVideo 1 "a")]
    (CState.mk [mkFreshVideo 2 "b"] 1 0 0 0 0 0) (by decide)

/-! ## Claim C4: the folder strata ordering -/

theorem insertCmp_pairwise_rank {c : α → α → Int} {r : α → Nat}
    (h1 : ∀ a b, r a < r b → c a b ≤ 0)
    (h2 : ∀ a b, r b < r a → 0 < c a b)
    (x : α) (l : List α) (hl : l.Pairwise (fun a b => r a ≤ r b)) :
    (insertCmp c x l).Pairwise (fun a b => r a ≤ r b) := by
  induction l with
  | nil => simp [insertCmp]
  | cons y ys ih =>
      rcases List.pairwise_cons.mp hl with ⟨hy, hys⟩
      simp only [insertCmp]
      split
      · rename_i hc
        have hxy : r x ≤ r y := by
          by_contra hgt
          exact absurd hc (by simpa using h2 x y (by omega))
        refine List.pairwise_cons.mpr ⟨?_, hl⟩
        intro z hz
        rcases List.mem_cons.mp hz with rfl | hz
        · exact hxy
        · exact le_trans hxy (hy z hz)
      · rename_i hc
        have hyx : r y ≤ r x := by
          by_contra hgt
          exact absurd (h1 x y (by omega)) (by omega)
        refine List.pairwise_cons.mpr ⟨?_, ih hys⟩
        intro z hz
        rcases List.mem_cons.mp ((insertCmp_perm c x ys).mem_iff.mp hz) with rfl | hz2
        · exact hyx
        · exact hy z hz2
  
theorem sortByCmp_pairwise_rank {c : α → α → Int} {r : α → Nat}
    (h1 : ∀ a b, r a < r b → c a b ≤ 0)
    (h2 : ∀ a b, r b < r a → 0 < c a b)
    (l : List α) :
    (sortByCmp c l).Pairwise (fun a b => r a ≤ r b) := by
  induction l with
  | nil => simp [sortByCmp]
  | cons x xs ih => exact insertCmp_pairwise_rank h1 h2 x (sortByCmp c xs) ih

theorem folder_do_sort_rank_lt (priv : Bool) (a b : SortChild)
    (h : strataRank a.kind < strataRank b.kind) : folder_do_sort priv a b ≤ 0 := by
  obtain ⟨ka, na, ua, ra⟩ := a
  obtain ⟨kb, nb, ub, rb⟩ := b
  cases ka <;> cases kb <;>
    simp_all [folder_do_sort, strataRank, isRemoteKind]

theorem folder_do_sort_rank_gt (priv : Bool) (a b : SortChild)
    (h : strataRank b.kind < strataRank a.kind) : 0 < folder_do_sort priv a b := by
  obtain ⟨ka, na, ua, ra⟩ := a
  obtain ⟨kb, nb, ub, rb⟩ := b
  cases ka <;> cases kb <;>
    simp_all [folder_do_sort, strataRank, isRemoteKind]

/-- C4: after `Folder.sort_children`, the children are arranged by
structural stratum — every folder child precedes every channel/playlist
child, which precedes every video child — irrespective of the children's
names or times (stated as: along the sorted list the stratum rank never
decreases). -/
theorem folder_sort_strata_order (priv : Bool) (l : List SortChild) :
    (folder_sort_children priv l).Pairwise
      (fun a b => strataRank a.kind ≤ strataRank b.kind) :=
  sortByCmp_pairwise_rank (folder_do_sort_rank_lt priv) (folder_do_sort_rank_gt priv) l

/-! ## Claim C3: totality of the remote comparator -/

/-- C3: the claim demands that `GenericRemoteContainer.do_sort` return one of
-1, 0, 1 for every pair, including a pair with equal set upload times but a
missing receive time — as its own docstring also promises.  On such a pair
the function instead falls off the end of its `if`/`elif` chain and returns
`None` (here `none`), on which `functools.cmp_to_key` raises `TypeError`
inside `list.sort`: the code, not the claim, is at fault. -/
theorem remote_do_sort_none_on_missing_receive_time :
    remote_do_sort false
      { mkFreshVideo 1 "a" with upload_time := some 100, receive_time := some 50 }
      { mkFreshVideo 2 "b" with upload_time := some 100 } = none := rfl

/-! ## Claim C2: the remote accept condition -/

/-- C2: the accept condition of `GenericRemoteContainer.add_child` is
`isinstance(child_obj, Video) or child_obj in self.child_list`, so re-adding
a video that is already a child appends a duplicate entry and increments
`vid_count` — contradicting the function's own comment ("check this is not
already a child object") and the claim's no-op requirement: the code, not the
claim, is at fault. -/
theorem remote_add_child_readds_existing_video :
    remote_add_child false
      { initCState with child_list := [mkFreshVideo 7 "v"], vid_count := 1 }
      (mkFreshVideo 7 "v")
    = some { initCState with
              child_list := [mkFreshVideo 7 "v", mkFreshVideo 7 "v"]
              vid_count := 2 } := by
  decide

/-! ## Claim C8: nickname re-sync on rename -/

/-- C8 counterexample: renaming a `media.Video` whose nickname still equals
its pre-rename name does not re-sync the nickname (`Video.set_name` never
touches it), so the claim fails for the Video variant. -/
theorem video_set_name_no_nickname_resync :
    (video_set_name { name := "a", nickname := "a" } "b").nickname = "a"
      ∧ ("a" : String) ≠ "b" :=
  ⟨rfl, by decide⟩

/-- C8 amended: for Channel, Playlist and Folder (`GenericContainer.set_name`)
the rename re-syncs the nickname exactly when the nickname still equals the
pre-rename name and leaves it unchanged otherwise; `Video.set_name` overrides
this and never modifies the nickname. -/
theorem set_name_nickname_resync_amended (s : NameState) (n : String) :
    (container_set_name s n).name = n
      ∧ (container_set_name s n).nickname
          = (if s.nickname = s.name then n else s.nickname)
      ∧ (video_set_name s n).name = n
      ∧ (video_set_name s n).nickname = s.nickname := by
  unfold container_set_name video_set_name
  by_cases h : s.nickname = s.name <;> simp [h]

/-! ## Claim C5: one-level alias resolution -/

/-- C5: when the node's `master_dbid` is registered, `get_actual_dir` returns
the default directory of the registry entry for `master_dbid` when the node
is aliased, and the node's own default directory otherwise.  The right-hand
side is `get_default_dir` of the master — not `get_actual_dir` — so the
resolution is applied exactly once and is never iterated along a chain of
aliases, even when the master is itself aliased. -/
theorem get_actual_dir_one_level (reg : Nat → Option CNode)
    (downloads_dir : String) (self : CNode) (new_name : Option String)
    (m : CNode) (hm : reg self.master_dbid = some m) :
    get_actual_dir reg downloads_dir self new_name =
      some (get_default_dir downloads_dir
        (if self.master_dbid = self.dbid then self else m) new_name) := by
  unfold get_actual_dir
  by_cases h : self.master_dbid = self.dbid <;> simp [h, hm]

/-- Witness for C5: a concrete aliased node (`dbid` 1, `master_dbid` 5) in a
registry holding the master; the actual directory is the master's default
directory. -/
theorem get_actual_dir_one_level_witness :
    get_actual_dir (fun i => if i = 5 then some ⟨5, 5, "m", ["r"]⟩ else none)
      "/dl" ⟨1, 5, "alias", ["r"]⟩ none = some "/dl/r/m" :=
  (get_actual_dir_one_level (fun i => if i = 5 then some ⟨5, 5, "m", ["r"]⟩ else none)
    "/dl" ⟨1, 5, "alias", ["r"]⟩ none ⟨5, 5, "m", ["r"]⟩ rfl).trans (by decide)

/-! ## Claim C6: `set_master_dbid` and missing registry entries -/

/-- C6 counterexample: setting a new master id that is absent from the
registry raises an uncaught `KeyError` (the bare
`app_obj.media_reg_dict[self.master_dbid]` lookup), rather than completing
with a not-found outcome as the claim states. -/
theorem set_master_dbid_raises_on_new_master_miss :
    set_master_dbid (fun _ => none) ⟨1, 1⟩ 2 = .error (.keyError 2) := rfl

/-- C6 amended: a missing OLD master is tolerated — when a previously aliased
node is reset to its own id and the old master is absent, the slave-list
update is skipped and the call completes — but a missing NEW master id (one
differing from the node's own id) raises an uncaught `KeyError` instead of
being surfaced as a not-found outcome. -/
theorem set_master_dbid_amended_behaviour :
    (∀ (reg : Nat → Option RegNode) (self : MasterState),
        self.master_dbid ≠ self.dbid → reg self.master_dbid = none →
        set_master_dbid reg self self.dbid
          = .ok ({ self with master_dbid := self.dbid }, reg))
    ∧ (∀ (reg : Nat → Option RegNode) (self : MasterState) (dbid : Nat),
        dbid ≠ self.master_dbid → dbid ≠ self.dbid → reg dbid = none →
        set_master_dbid reg self dbid = .error (.keyError dbid)) := by
  constructor
  · intro reg self h hmiss
    unfold set_master_dbid
    rw [if_neg (by omega)]
    simp [h, hmiss]
  · intro reg self dbid h1 h2 h3
    unfold set_master_dbid
    rw [if_neg h1]
    by_cases ha : self.master_dbid = self.dbid
    · simp [ha, h2, h3]
    · cases hro : reg self.master_dbid with
      | none => simp [ha, hro, h2, h3]
      | some old => simp [ha, hro, h2, h3, regSet, h1]

/-- Witness for C6: both amended behaviours at concrete inputs — resetting a
node aliased to a missing master succeeds, and aliasing to a missing master
raises `KeyError`. -/
theorem set_master_dbid_amended_behaviour_witness :
    set_master_dbid (fun _ => none) ⟨3, 9⟩ 3
      = .ok ({ dbid := 3, master_dbid := 3 }, fun _ => none)
    ∧ set_master_dbid (fun _ => none) ⟨4, 7⟩ 9 = .error (.keyError 9) :=
  ⟨set_master_dbid_amended_behaviour.1 (fun _ => none) ⟨3, 9⟩ (by decide) rfl,
   set_master_dbid_amended_behaviour.2 (fun _ => none) ⟨4, 7⟩ 9 (by decide) (by decide) rfl⟩

/-! ## Claim C10: `get_relative_actual_dir` cannot return -/

/-- C10: `get_relative_actual_dir` never returns a relative path: both its
branches pass the registry object as an extra positional argument to
`get_relative_default_dir`, whose signature accepts only an optional name
override, so whenever the branch's own dictionary lookup does not fail first
(the container is unaliased, or its master id is registered) the call raises
`TypeError`; no call ever produces a result. -/
theorem get_relative_actual_dir_always_errors (reg : Nat → Option CNode)
    (self : CNode) (new_name : Option String) :
    (∀ s, get_relative_actual_dir reg self new_name ≠ .ok s)
    ∧ (self.master_dbid = self.dbid ∨ (∃ m, reg self.master_dbid = some m) →
        get_relative_actual_dir reg self new_name = .error .typeError) := by
  constructor
  · intro s
    unfold get_relative_actual_dir pyCallBound get_relative_default_dir_max_args
    by_cases h : self.master_dbid = self.dbid
    · simp [h]
    · cases hr : reg self.master_dbid <;> simp [h, hr]
  · intro h
    unfold get_relative_actual_dir pyCallBound get_relative_default_dir_max_args
    rcases h with h | ⟨m, hm⟩
    · simp [h]
    · by_cases h2 : self.master_dbid = self.dbid
      · simp [h2]
      · simp [h2, hm]

/-- Witness for C10: a concrete unaliased container; the call raises
`TypeError`. -/
theorem get_relative_actual_dir_always_errors_witness :
    get_relative_actual_dir (fun _ => none) ⟨1, 1, "c", []⟩ none
      = .error .typeError :=
  (get_relative_actual_dir_always_errors (fun _ => none) ⟨1, 1, "c", []⟩ none).2
    (Or.inl rfl)

/-! ## Claim C7: the flat export serializer -/

theorem find_set_map (db : List (Nat × ExpDoc)) (k : Nat) (v : ExpDoc)
    (h : (db.find? (fun p => p.1 = k)).isSome = true) :
    (db.map (fun p => if p.1 = k then (k, v) else p)).find? (fun p => p.1 = k)
      = some (k, v) := by
  induction db with
  | nil => simp at h
  | cons p ps ih =>
      by_cases hp : p.1 = k
      · simp [hp]
      · have h2 : (ps.find? (fun p => p.1 = k)).isSome = true := by
          simpa [List.find?_cons, hp] using h
        simpa [hp] using ih h2

theorem find_append_none (l1 l2 : List (Nat × ExpDoc)) (p : Nat × ExpDoc → Bool)
    (h : l1.find? p = none) : (l1 ++ l2).find? p = l2.find? p := by
  induction l1 with
  | nil => rfl
  | cons q qs ih =>
      cases hq : p q with
      | true => rw [List.find?_cons_of_pos _ hq] at h; exact absurd h (by simp)
      | false =>
          rw [List.find?_cons_of_neg _ (by simp [hq])] at h
          rw [List.cons_append, List.find?_cons_of_neg _ (by simp [hq])]
          exact ih h

theorem dictGet_dictSet_self (db : List (Nat × ExpDoc)) (k : Nat) (v : ExpDoc) :
    dictGet (dictSet db k v) k = some v := by
  unfold dictGet dictSet
  by_cases h : (db.find? (fun p => p.1 = k)).isSome = true
  · rw [if_pos h, find_set_map db k v h]
    rfl
  · rw [if_neg (by simpa using h)]
    have hnone : db.find? (fun p => p.1 = k) = none :=
      Option.not_isSome_iff_eq_none.mp (by simpa using h)
    rw [find_append_none _ _ _ hnone]
    simp [List.find?_cons]

theorem flat_folder_children_eq_foldl (iv ic ip : Bool) (cs : List MTree) :
    ∀ db, flat_flat_folder_children iv ic ip cs db =
      (cs.filter (fun c => !c.isVideo)).foldl
        (fun acc c => prepare_flat_export iv ic ip c acc) db := by
  induction cs with
  | nil => intro db; rfl
  | cons c rest ih =>
      intro db
      cases c <;> simp [flat_flat_folder_children, MTree.isVideo, ih]

/-- C7 counterexample: flat export of a non-fixed folder holding one video
child with a known source, all include flags set, yields the empty
collection — the video appears nowhere, while the claim requires it to appear
in the top-level collection with its id preserved. -/
theorem flat_export_drops_folder_video :
    prepare_flat_export true true true
      (.folder ⟨1, "Root", "Root", false⟩
        [.video { mkFreshVideo 2 "v" with source := some "https://x" }]) []
      = [] := rfl

/-- C7 amended: in flat mode a non-fixed folder contributes no document of
its own — its export is exactly the fold of the flat export over its
NON-video children into the enclosing collection, so a video whose direct
parent is a folder is omitted entirely — while an included channel (likewise
a playlist) does appear in the collection as a document carrying its own id
and type. -/
theorem flat_export_folder_amended :
    (∀ (iv ic ip : Bool) (d : FolderData) (cs : List MTree)
        (db : List (Nat × ExpDoc)), d.fixed_flag = false →
        prepare_flat_export iv ic ip (.folder d cs) db =
          (cs.filter (fun c => !c.isVideo)).foldl
            (fun acc c => prepare_flat_export iv ic ip c acc) db)
    ∧ (∀ (iv ip : Bool) (d : RemoteData) (cs : List MTree)
        (db : List (Nat × ExpDoc)),
        ∃ doc, dictGet (prepare_flat_export iv true ip (.channel d cs) db) d.dbid
            = some doc
          ∧ doc.dbid = d.dbid ∧ doc.ty = "channel") := by
  constructor
  · intro iv ic ip d cs db hfix
    rw [prepare_flat_export]
    rw [if_neg (by simp [hfix])]
    exact flat_folder_children_eq_foldl iv ic ip cs db
  · intro iv ip d cs db
    refine ⟨ExpDoc.mk "channel" d.dbid d.name (some d.nickname) d.source
      (flat_remote_children iv true ip cs [] db).1, ?_, rfl, rfl⟩
    rw [prepare_flat_export]
    rw [if_pos rfl]
    exact dictGet_dictSet_self _ _ _

/-- Witness for C7: the flat export of a concrete non-fixed empty folder
equals the fold over its (no) non-video children, and a concrete channel
appears in the collection under its own id. -/
theorem flat_export_folder_amended_witness :
    prepare_flat_export true true true (.folder ⟨4, "F", "F", false⟩ []) [] = []
    ∧ ∃ doc,
        dictGet (prepare_flat_export true true true (.channel ⟨6, "C", "C", some "u"⟩ []) []) 6
          = some doc ∧ doc.dbid = 6 ∧ doc.ty = "channel" :=
  ⟨(flat_export_folder_amended.1 true true true ⟨4, "F", "F", false⟩ [] [] rfl).trans rfl,
   flat_export_folder_amended.2 true true ⟨6, "C", "C", some "u"⟩ [] []⟩

/-! ## Claim C9: exact-match name matching -/

/-- C9: under the exact-match policy, `find_matching_video` returns exactly
the first direct video child, in current child order, whose normalized name
equals the normalized candidate name (the spec-side reading
`findMatchingVideoExactSpec`); in particular the candidate "Foo: Bar!"
matches a child named "Foo Bar" but matches neither "FooBar" nor
"Foo Bar Baz". -/
theorem find_matching_video_exact_spec :
    (∀ (first ignore : Nat) (children : List MTree) (name : String),
        find_matching_video "exact_match" first ignore children name
          = findMatchingVideoExactSpec children name)
    ∧ find_matching_video "exact_match" 10 10
        [.video (mkFreshVideo 1 "FooBar"),
         .video (mkFreshVideo 2 "Foo Bar Baz"),
         .video (mkFreshVideo 3 "Foo Bar")] "Foo: Bar!"
        = some (mkFreshVideo 3 "Foo Bar")
    ∧ find_matching_video "exact_match" 10 10
        [.video (mkFreshVideo 1 "FooBar"),
         .video (mkFreshVideo 2 "Foo Bar Baz")] "Foo: Bar!"
        = none := by
  refine ⟨?_, by decide, by decide⟩
  intro first ignore children name
  unfold find_matching_video findMatchingVideoExactSpec
  induction children with
  | nil => rfl
  | cons c rest ih =>
      cases c with
      | video vd =>
          have hfm : List.filterMap MTree.asVideo (MTree.video vd :: rest)
              = vd :: List.filterMap MTree.asVideo rest := by
            simp [MTree.asVideo]
          rw [hfm]
          simp only [fmv_loop]
          by_cases h : tidy_name vd.name = tidy_name name
          · rw [if_pos (Or.inl ⟨trivial, h⟩),
              List.find?_cons_of_pos _ (by simp [h])]
          · rw [if_neg ?hneg, List.find?_cons_of_neg _ (by simp [h])]
            · exact ih
            case hneg =>
              rintro (⟨_, hc⟩ | ⟨hc, _⟩ | ⟨hc, _⟩)
              · exact h hc
              · exact absurd hc (by decide)
              · exact absurd hc (by decide)
      | channel d cc =>
          simpa [fmv_loop, MTree.asVideo] using ih
      | playlist d cc =>
          simpa [fmv_loop, MTree.asVideo] using ih
      | folder d cc =>
          simpa [fmv_loop, MTree.asVideo] using ih
